import Mathlib

/-!
Formal model of the omnai model-configuration registry
(`src/omnai/configs.py`).

Python dicts keyed by string are embedded as association lists
(`List (String × α)`) preserving insertion order, matching the ordered
iteration semantics of Python dicts.  A record field that may be absent
from a dict is embedded as an `Option`; `d.get(k)` becomes the field
itself, `d.get(k, v)` becomes `.getD v`, and `d[k] = v` on the custom
registry becomes `dictInsert`.  The process-wide mutable `_CUSTOM_CONFIGS`
dict becomes an explicit `Registry` value threaded through every
operation.  `ValueError`s raised by `validate_model` become an `Except`
value whose error constructors carry exactly the data interpolated into
the Python message strings.
-/

namespace Omnai

/-- Per-million-token cost, the `cost_per_mtok` sub-dict.  The source
stores US dollars as floats with at most two decimals; this model scales
by 100 and stores US cents, keeping the values exact (the numbers are
informational only and no operation computes with them). -/
structure CostPerMtok where
  input : Nat
  output : Nat
deriving DecidableEq

/-- One model-configuration dict.  Built-in entries populate every field;
dicts passed to `register_config` may omit any field, hence every field is
an `Option`.  The `id` field models the `"id"` key that query functions
add to a copy of the stored dict before returning it.
`default_temperature` is stored in tenths (the source's floats `0.2`,
`0.7`, `1.0` become `2`, `7`, `10`); no operation reads it. -/
structure ModelConfig where
  engine : Option String := Option.none
  model : Option String := Option.none
  full_name : Option String := Option.none
  context_window : Option Nat := Option.none
  default_temperature : Option Nat := Option.none
  cost : Option String := Option.none
  cost_per_mtok : Option CostPerMtok := Option.none
  free_tier : Option Bool := Option.none
  speed : Option String := Option.none
  quality : Option String := Option.none
  best_for : Option (List String) := Option.none
  notes : Option String := Option.none
  id : Option String := Option.none
deriving DecidableEq

/-- One engine-configuration dict of `ENGINE_CONFIGS`.  The `aliases` key
is present only on the `claude` entry, hence an `Option`. -/
structure EngineConfig where
  name : String
  description : String
  type : String
  requires_auth : Bool
  supports_streaming : Bool
  default_model : Option String
  aliases : Option (List String) := Option.none
deriving DecidableEq

def cfg_claude_sonnet_4_20250514 : ModelConfig :=
  { engine := some "claude", model := some "claude-sonnet-4-20250514",
    full_name := some "Claude Sonnet 4 (May 2025)", context_window := some 200000,
    default_temperature := some 7, cost := some "medium",
    cost_per_mtok := some { input := 300, output := 1500 }, free_tier := some true,
    speed := some "fast", quality := some "excellent",
    best_for := some ["coding", "analysis", "reasoning", "general"],
    notes := some "Best balance of speed, quality, and cost. Recommended default." }

def cfg_claude_opus_4_20250514 : ModelConfig :=
  { engine := some "claude", model := some "claude-opus-4-20250514",
    full_name := some "Claude Opus 4 (May 2025)", context_window := some 200000,
    default_temperature := some 7, cost := some "expensive",
    cost_per_mtok := some { input := 1500, output := 7500 }, free_tier := some false,
    speed := some "slow", quality := some "excellent",
    best_for := some ["complex-reasoning", "research", "high-stakes", "difficult-problems"],
    notes := some "Use when quality matters more than cost/speed. 5x more expensive than Sonnet." }

def cfg_claude_sonnet_3_7 : ModelConfig :=
  { engine := some "claude", model := some "claude-sonnet-3.7",
    full_name := some "Claude Sonnet 3.7", context_window := some 200000,
    default_temperature := some 7, cost := some "medium",
    cost_per_mtok := some { input := 300, output := 1500 }, free_tier := some true,
    speed := some "fast", quality := some "excellent",
    best_for := some ["coding", "analysis", "reasoning"],
    notes := some "Previous generation Sonnet. Still very capable." }

def cfg_claude_haiku_3_5 : ModelConfig :=
  { engine := some "claude", model := some "claude-haiku-3.5",
    full_name := some "Claude Haiku 3.5", context_window := some 200000,
    default_temperature := some 7, cost := some "cheap",
    cost_per_mtok := some { input := 80, output := 400 }, free_tier := some true,
    speed := some "very-fast", quality := some "good",
    best_for := some ["simple-tasks", "batch-processing", "quick-responses"],
    notes := some "Fastest and cheapest Claude model. Good for simple, straightforward tasks." }

def cfg_gpt_4o : ModelConfig :=
  { engine := some "opencode", model := some "gpt-4o",
    full_name := some "GPT-4o", context_window := some 128000,
    default_temperature := some 10, cost := some "medium",
    cost_per_mtok := some { input := 250, output := 1000 }, free_tier := some false,
    speed := some "fast", quality := some "excellent",
    best_for := some ["coding", "multimodal", "general", "reasoning"],
    notes := some "OpenAI's flagship model. Optimized for speed and cost." }

def cfg_gpt_4_turbo : ModelConfig :=
  { engine := some "opencode", model := some "gpt-4-turbo",
    full_name := some "GPT-4 Turbo", context_window := some 128000,
    default_temperature := some 10, cost := some "medium",
    cost_per_mtok := some { input := 1000, output := 3000 }, free_tier := some false,
    speed := some "fast", quality := some "excellent",
    best_for := some ["coding", "analysis", "reasoning"],
    notes := some "Previous generation GPT-4. Still very capable." }

def cfg_gpt_3_5_turbo : ModelConfig :=
  { engine := some "opencode", model := some "gpt-3.5-turbo",
    full_name := some "GPT-3.5 Turbo", context_window := some 16385,
    default_temperature := some 10, cost := some "cheap",
    cost_per_mtok := some { input := 50, output := 150 }, free_tier := some false,
    speed := some "very-fast", quality := some "good",
    best_for := some ["simple-tasks", "batch-processing", "prototyping"],
    notes := some "Fastest and cheapest OpenAI model. Good for simple tasks." }

def cfg_o1_preview : ModelConfig :=
  { engine := some "opencode", model := some "o1-preview",
    full_name := some "OpenAI o1 Preview", context_window := some 128000,
    default_temperature := some 10, cost := some "expensive",
    cost_per_mtok := some { input := 1500, output := 6000 }, free_tier := some false,
    speed := some "slow", quality := some "excellent",
    best_for := some ["complex-reasoning", "math", "science", "research"],
    notes := some "Advanced reasoning model. Uses extended thinking time for hard problems." }

def cfg_o1 : ModelConfig :=
  { engine := some "opencode", model := some "o1",
    full_name := some "OpenAI o1", context_window := some 200000,
    default_temperature := some 10, cost := some "expensive",
    cost_per_mtok := some { input := 1500, output := 6000 }, free_tier := some false,
    speed := some "slow", quality := some "excellent",
    best_for := some ["complex-reasoning", "production", "high-stakes"],
    notes := some "Production reasoning model with extended context." }

def cfg_deepseek_chat : ModelConfig :=
  { engine := some "opencode", model := some "deepseek-chat",
    full_name := some "DeepSeek V3", context_window := some 64000,
    default_temperature := some 10, cost := some "cheap",
    cost_per_mtok := some { input := 14, output := 28 }, free_tier := some false,
    speed := some "fast", quality := some "excellent",
    best_for := some ["coding", "reasoning", "cost-efficiency"],
    notes := some "DeepSeek V3. Extremely cost-efficient with excellent coding ability." }

def cfg_minimax_m2_1 : ModelConfig :=
  { engine := some "opencode", model := some "minimax-m2.1",
    full_name := some "MiniMax M2.1", context_window := some 32000,
    default_temperature := some 10, cost := some "cheap",
    cost_per_mtok := some { input := 10, output := 10 }, free_tier := some false,
    speed := some "fast", quality := some "good",
    best_for := some ["general", "cost-efficiency"],
    notes := some "MiniMax's latest model. Very cost-efficient." }

def cfg_minimax_m2_1_free : ModelConfig :=
  { engine := some "opencode", model := some "minimax-m2.1-free",
    full_name := some "MiniMax M2.1 (Free)", context_window := some 32000,
    default_temperature := some 10, cost := some "free",
    cost_per_mtok := some { input := 0, output := 0 }, free_tier := some true,
    speed := some "fast", quality := some "good",
    best_for := some ["general", "cost-efficiency", "prototyping"],
    notes := some "Free tier MiniMax M2.1 via opencode. No API key required." }

def cfg_big_pickle : ModelConfig :=
  { engine := some "opencode", model := some "big-pickle",
    full_name := some "Big Pickle", context_window := some 200000,
    default_temperature := some 10, cost := some "free",
    cost_per_mtok := some { input := 0, output := 0 }, free_tier := some true,
    speed := some "medium", quality := some "good",
    best_for := some ["general", "reasoning", "long-context"],
    notes := some "Free reasoning model via opencode. 200K context window." }

def cfg_glm_4_7_free : ModelConfig :=
  { engine := some "opencode", model := some "glm-4.7-free",
    full_name := some "GLM-4.7 (Free)", context_window := some 204000,
    default_temperature := some 10, cost := some "free",
    cost_per_mtok := some { input := 0, output := 0 }, free_tier := some true,
    speed := some "medium", quality := some "good",
    best_for := some ["general", "long-context", "analysis"],
    notes := some "Free GLM model via opencode. 204K context window for extensive documents." }

def cfg_gpt_5_nano : ModelConfig :=
  { engine := some "opencode", model := some "gpt-5-nano",
    full_name := some "GPT-5 Nano", context_window := some 16000,
    default_temperature := some 10, cost := some "free",
    cost_per_mtok := some { input := 0, output := 0 }, free_tier := some true,
    speed := some "very-fast", quality := some "fair",
    best_for := some ["simple-tasks", "testing", "prototyping"],
    notes := some "Free lightweight model via opencode. Good for simple tasks." }

def cfg_grok_code : ModelConfig :=
  { engine := some "opencode", model := some "grok-code",
    full_name := some "Grok Code", context_window := some 32000,
    default_temperature := some 10, cost := some "free",
    cost_per_mtok := some { input := 0, output := 0 }, free_tier := some true,
    speed := some "fast", quality := some "good",
    best_for := some ["coding", "debugging", "prototyping"],
    notes := some "Free coding-focused model via opencode." }

def cfg_minimax_m2 : ModelConfig :=
  { engine := some "opencode", model := some "minimax/MiniMax-M2",
    full_name := some "MiniMax M2 (API)", context_window := some 32000,
    default_temperature := some 10, cost := some "cheap",
    cost_per_mtok := some { input := 30, output := 120 }, free_tier := some false,
    speed := some "fast", quality := some "good",
    best_for := some ["general", "cost-efficiency"],
    notes := some "MiniMax M2 via private API key. Use --model minimax/MiniMax-M2." }

def cfg_minimax_m2_1_api : ModelConfig :=
  { engine := some "opencode", model := some "minimax/MiniMax-M2.1",
    full_name := some "MiniMax M2.1 (API)", context_window := some 32000,
    default_temperature := some 10, cost := some "cheap",
    cost_per_mtok := some { input := 30, output := 120 }, free_tier := some false,
    speed := some "fast", quality := some "good",
    best_for := some ["general", "cost-efficiency"],
    notes := some "MiniMax M2.1 via private API key. Use --model minimax/MiniMax-M2.1." }

def cfg_deepseek_v3 : ModelConfig :=
  { engine := some "codex", model := some "deepseek-v3",
    full_name := some "DeepSeek V3 (via Codex)", context_window := some 64000,
    default_temperature := some 10, cost := some "cheap",
    cost_per_mtok := some { input := 14, output := 28 }, free_tier := some false,
    speed := some "fast", quality := some "excellent",
    best_for := some ["coding", "reasoning"],
    notes := some "DeepSeek V3 via Codex CLI. Excellent for coding." }

def cfg_claude_sonnet_4 : ModelConfig :=
  { engine := some "codex", model := some "claude-sonnet-4",
    full_name := some "Claude Sonnet 4 (via Codex)", context_window := some 200000,
    default_temperature := some 7, cost := some "medium",
    cost_per_mtok := some { input := 300, output := 1500 }, free_tier := some false,
    speed := some "fast", quality := some "excellent",
    best_for := some ["coding", "reasoning"],
    notes := some "Claude Sonnet 4 accessed via Codex CLI." }

def cfg_qwen2_5_coder_7b : ModelConfig :=
  { engine := some "ollama", model := some "qwen2.5-coder:7b",
    full_name := some "Qwen 2.5 Coder 7B", context_window := some 32768,
    default_temperature := some 2, cost := some "free",
    cost_per_mtok := some { input := 0, output := 0 }, free_tier := some true,
    speed := some "medium", quality := some "good",
    best_for := some ["coding", "offline-work", "privacy", "local-dev"],
    notes := some "Free local inference. Excellent for coding. Requires ~6GB RAM." }

def cfg_qwen2_5_coder_14b : ModelConfig :=
  { engine := some "ollama", model := some "qwen2.5-coder:14b",
    full_name := some "Qwen 2.5 Coder 14B", context_window := some 32768,
    default_temperature := some 2, cost := some "free",
    cost_per_mtok := some { input := 0, output := 0 }, free_tier := some true,
    speed := some "medium", quality := some "good",
    best_for := some ["coding", "offline-work", "privacy"],
    notes := some "Larger Qwen model. Better quality than 7B. Requires ~12GB RAM." }

def cfg_qwen2_5_coder_32b : ModelConfig :=
  { engine := some "ollama", model := some "qwen2.5-coder:32b",
    full_name := some "Qwen 2.5 Coder 32B", context_window := some 32768,
    default_temperature := some 2, cost := some "free",
    cost_per_mtok := some { input := 0, output := 0 }, free_tier := some true,
    speed := some "slow", quality := some "excellent",
    best_for := some ["coding", "complex-problems", "local-dev"],
    notes := some "Largest Qwen coder. Best quality. Requires ~24GB RAM." }

def cfg_deepseek_coder_v2_16b : ModelConfig :=
  { engine := some "ollama", model := some "deepseek-coder-v2:16b",
    full_name := some "DeepSeek Coder V2 16B", context_window := some 16384,
    default_temperature := some 2, cost := some "free",
    cost_per_mtok := some { input := 0, output := 0 }, free_tier := some true,
    speed := some "medium", quality := some "good",
    best_for := some ["coding", "local-dev"],
    notes := some "DeepSeek's local coding model. Strong performance. Requires ~12GB RAM." }

def cfg_codellama_7b : ModelConfig :=
  { engine := some "ollama", model := some "codellama:7b",
    full_name := some "Code Llama 7B", context_window := some 16384,
    default_temperature := some 2, cost := some "free",
    cost_per_mtok := some { input := 0, output := 0 }, free_tier := some true,
    speed := some "fast", quality := some "fair",
    best_for := some ["coding", "local-dev", "lightweight"],
    notes := some "Meta's Code Llama. Lightweight option. Requires ~5GB RAM." }

def cfg_llama3_2_3b : ModelConfig :=
  { engine := some "ollama", model := some "llama3.2:3b",
    full_name := some "Llama 3.2 3B", context_window := some 128000,
    default_temperature := some 7, cost := some "free",
    cost_per_mtok := some { input := 0, output := 0 }, free_tier := some true,
    speed := some "very-fast", quality := some "fair",
    best_for := some ["simple-tasks", "lightweight", "prototyping"],
    notes := some "Ultra-lightweight general model. Fast inference. Requires ~2GB RAM." }

def cfg_llama3_2 : ModelConfig :=
  { engine := some "ollama", model := some "llama3.2",
    full_name := some "Llama 3.2", context_window := some 128000,
    default_temperature := some 7, cost := some "free",
    cost_per_mtok := some { input := 0, output := 0 }, free_tier := some true,
    speed := some "medium", quality := some "good",
    best_for := some ["general", "local-dev"],
    notes := some "General-purpose Llama model. Balanced performance." }

def cfg_llama3_1 : ModelConfig :=
  { engine := some "ollama", model := some "llama3.1",
    full_name := some "Llama 3.1", context_window := some 128000,
    default_temperature := some 7, cost := some "free",
    cost_per_mtok := some { input := 0, output := 0 }, free_tier := some true,
    speed := some "medium", quality := some "good",
    best_for := some ["general", "local-dev"],
    notes := some "Previous generation Llama. Still capable." }

def cfg_mistral : ModelConfig :=
  { engine := some "ollama", model := some "mistral",
    full_name := some "Mistral 7B", context_window := some 32768,
    default_temperature := some 7, cost := some "free",
    cost_per_mtok := some { input := 0, output := 0 }, free_tier := some true,
    speed := some "fast", quality := some "good",
    best_for := some ["general", "lightweight"],
    notes := some "Mistral's 7B model. Good general performance. Requires ~5GB RAM." }

def cfg_deepseek_coder : ModelConfig :=
  { engine := some "ollama", model := some "deepseek-coder",
    full_name := some "DeepSeek Coder", context_window := some 16384,
    default_temperature := some 2, cost := some "free",
    cost_per_mtok := some { input := 0, output := 0 }, free_tier := some true,
    speed := some "medium", quality := some "good",
    best_for := some ["coding", "local-dev"],
    notes := some "DeepSeek's original coding model." }

/-- The built-in `MODEL_CONFIGS` dict, in source order. -/
def MODEL_CONFIGS : List (String × ModelConfig) :=
  [("claude-sonnet-4-20250514", cfg_claude_sonnet_4_20250514),
   ("claude-opus-4-20250514", cfg_claude_opus_4_20250514),
   ("claude-sonnet-3.7", cfg_claude_sonnet_3_7),
   ("claude-haiku-3.5", cfg_claude_haiku_3_5),
   ("gpt-4o", cfg_gpt_4o),
   ("gpt-4-turbo", cfg_gpt_4_turbo),
   ("gpt-3.5-turbo", cfg_gpt_3_5_turbo),
   ("o1-preview", cfg_o1_preview),
   ("o1", cfg_o1),
   ("deepseek-chat", cfg_deepseek_chat),
   ("minimax-m2.1", cfg_minimax_m2_1),
   ("minimax-m2.1-free", cfg_minimax_m2_1_free),
   ("big-pickle", cfg_big_pickle),
   ("glm-4.7-free", cfg_glm_4_7_free),
   ("gpt-5-nano", cfg_gpt_5_nano),
   ("grok-code", cfg_grok_code),
   ("minimax-m2", cfg_minimax_m2),
   ("minimax-m2.1-api", cfg_minimax_m2_1_api),
   ("deepseek-v3", cfg_deepseek_v3),
   ("claude-sonnet-4", cfg_claude_sonnet_4),
   ("qwen2.5-coder:7b", cfg_qwen2_5_coder_7b),
   ("qwen2.5-coder:14b", cfg_qwen2_5_coder_14b),
   ("qwen2.5-coder:32b", cfg_qwen2_5_coder_32b),
   ("deepseek-coder-v2:16b", cfg_deepseek_coder_v2_16b),
   ("codellama:7b", cfg_codellama_7b),
   ("llama3.2:3b", cfg_llama3_2_3b),
   ("llama3.2", cfg_llama3_2),
   ("llama3.1", cfg_llama3_1),
   ("mistral", cfg_mistral),
   ("deepseek-coder", cfg_deepseek_coder)]

def eng_claude : EngineConfig :=
  { name := "Claude CLI", description := "Anthropic's Claude via CLI tool",
    type := "cloud", requires_auth := true, supports_streaming := true,
    default_model := some "claude-sonnet-4-20250514",
    aliases := some ["claude-code"] }

def eng_opencode : EngineConfig :=
  { name := "OpenCode", description := "Multi-provider AI tool (OpenAI, DeepSeek, MiniMax)",
    type := "cloud", requires_auth := true, supports_streaming := true,
    default_model := some "gpt-4o" }

def eng_codex : EngineConfig :=
  { name := "Codex CLI", description := "OpenAI Codex CLI (supports multiple providers)",
    type := "cloud", requires_auth := true, supports_streaming := true,
    default_model := some "deepseek-v3" }

def eng_ollama : EngineConfig :=
  { name := "Ollama", description := "Local inference with open models",
    type := "local", requires_auth := false, supports_streaming := true,
    default_model := some "qwen2.5-coder:7b" }

def eng_aider : EngineConfig :=
  { name := "Aider", description := "AI pair programming assistant",
    type := "cloud", requires_auth := true, supports_streaming := true,
    default_model := Option.none }

def eng_qwen : EngineConfig :=
  { name := "Qwen-Code CLI", description := "Qwen AI coding assistant",
    type := "cloud", requires_auth := true, supports_streaming := true,
    default_model := Option.none }

def eng_cursor : EngineConfig :=
  { name := "Cursor Agent", description := "Cursor AI editor agent",
    type := "cloud", requires_auth := true, supports_streaming := true,
    default_model := Option.none }

def eng_goose : EngineConfig :=
  { name := "Goose CLI", description := "Block's Goose AI assistant",
    type := "cloud", requires_auth := true, supports_streaming := true,
    default_model := Option.none }

def eng_copilot : EngineConfig :=
  { name := "GitHub Copilot CLI", description := "GitHub Copilot command-line interface",
    type := "cloud", requires_auth := true, supports_streaming := true,
    default_model := Option.none }

/-- The built-in `ENGINE_CONFIGS` dict, in source order. -/
def ENGINE_CONFIGS : List (String × EngineConfig) :=
  [("claude", eng_claude),
   ("opencode", eng_opencode),
   ("codex", eng_codex),
   ("ollama", eng_ollama),
   ("aider", eng_aider),
   ("qwen", eng_qwen),
   ("cursor", eng_cursor),
   ("goose", eng_goose),
   ("copilot", eng_copilot)]

/-- The mutable `_CUSTOM_CONFIGS` dict, threaded explicitly through every
operation. -/
abbrev Registry := List (String × ModelConfig)

/-- `d[k]` / `d.get(k)` on a string-keyed dict: the value at the first
(and, for dicts, only) occurrence of the key. -/
def lookupKey {α : Type} (d : List (String × α)) (k : String) : Option α :=
  match d with
  | [] => Option.none
  | p :: rest => if p.1 = k then some p.2 else lookupKey rest k

/-- `d[k] = v` on a Python dict: replace the value in place if the key is
present (keeping its position), otherwise append the new binding. -/
def dictInsert {α : Type} (d : List (String × α)) (k : String) (v : α) :
    List (String × α) :=
  if (lookupKey d k).isSome then
    d.map (fun p => if p.1 = k then (k, v) else p)
  else d ++ [(k, v)]

/-- `{**a, **b}` / building a fresh dict from `a`'s entries then `b`'s:
keys of `a` in order (values overridden by `b` where shared), then keys of
`b` not in `a`, in `b`'s order. -/
def dictMerge {α : Type} (a b : List (String × α)) : List (String × α) :=
  a.map (fun p => match lookupKey b p.1 with
    | some v => (p.1, v)
    | Option.none => p)
  ++ b.filter (fun p => (lookupKey a p.1).isNone)

/-- Python truthiness of an `Optional[str]`: `None` and `""` are falsy. -/
def strOptTruthy : Option String → Bool
  | Option.none => false
  | some s => !(s = "")

/-- `get_config`: built-in table first, then the custom registry; the
returned copy is annotated with the identifier. -/
def get_config (custom : Registry) (model_id : String) : Option ModelConfig :=
  match lookupKey MODEL_CONFIGS model_id with
  | some config => some { config with id := some model_id }
  | Option.none =>
    match lookupKey custom model_id with
    | some config => some { config with id := some model_id }
    | Option.none => Option.none

/-- `list_configs`: built-in entries then custom entries, optionally
filtered to one engine (`engine is None or config["engine"] == engine`),
each annotated with its identifier. -/
def list_configs (custom : Registry) (engine : Option String) :
    List ModelConfig :=
  (MODEL_CONFIGS.filter (fun p =>
      match engine with
      | Option.none => true
      | some e => p.2.engine = some e)).map
    (fun p => { p.2 with id := some p.1 })
  ++ (custom.filter (fun p =>
      match engine with
      | Option.none => true
      | some e => p.2.engine = some e)).map
    (fun p => { p.2 with id := some p.1 })

/-- A criterion argument of `find_configs`: `None`, a single string, or a
list of strings (`Optional[str | list[str]]`). -/
inductive Crit where
  | nil
  | one (s : String)
  | many (l : List String)
deriving DecidableEq

/-- The local `normalize` helper of `find_configs`. -/
def Crit.normalize : Crit → Option (List String)
  | .nil => Option.none
  | .one s => some [s]
  | .many l => some l

/-- `if cost_list and config.get("cost") not in cost_list`: a normalized
criterion rejects a record value iff the criterion list is truthy
(non-`None` and nonempty) and the value is not a member.  An absent value
(`None`) is never a member of a list of strings. -/
def critRejects (cl : Option (List String)) (v : Option String) : Bool :=
  match cl with
  | Option.none => false
  | some l =>
    if l.isEmpty then false
    else match v with
      | some s => !(decide (s ∈ l))
      | Option.none => true

/-- The `best_for` criterion check of `find_configs`:
`not any(use in model_use_cases for use in best_for_list)`. -/
def bestForRejects (bfl : Option (List String)) (uses : List String) : Bool :=
  match bfl with
  | Option.none => false
  | some l =>
    if l.isEmpty then false
    else !(l.any (fun use => decide (use ∈ uses)))

/-- `find_configs`: AND across criteria, OR within a list-valued
criterion, over the merged `{**MODEL_CONFIGS, **_CUSTOM_CONFIGS}` table. -/
def find_configs (custom : Registry)
    (cost speed quality best_for : Crit) (free_tier : Option Bool)
    (engine : Crit) : List ModelConfig :=
  let cost_list := cost.normalize
  let speed_list := speed.normalize
  let quality_list := quality.normalize
  let best_for_list := best_for.normalize
  let engine_list := engine.normalize
  ((dictMerge MODEL_CONFIGS custom).filter (fun p =>
    !(critRejects cost_list p.2.cost) &&
    !(critRejects speed_list p.2.speed) &&
    !(critRejects quality_list p.2.quality) &&
    !(match free_tier with
      | Option.none => false
      | some b => !(p.2.free_tier = some b)) &&
    !(critRejects engine_list p.2.engine) &&
    !(bestForRejects best_for_list (p.2.best_for.getD [])))).map
    (fun p => { p.2 with id := some p.1 })

/-- `get_default_model`: the hard-coded `claude-code → claude` alias
resolution, then `ENGINE_CONFIGS[engine].get("default_model")`. -/
def get_default_model (engine : String) : Option String :=
  let engine := if engine = "claude-code" then "claude" else engine
  match lookupKey ENGINE_CONFIGS engine with
  | some config => config.default_model
  | Option.none => Option.none

/-- `list_engines`: every engine record annotated with its identifier
(modelled as the pair of identifier and record). -/
def list_engines : List (String × EngineConfig) :=
  ENGINE_CONFIGS.map (fun p => (p.1, p.2))

/-- The summary dict built by `find_similar_models` (and, without the
`model` key, by the listing branch of `get_model_suggestions`). -/
structure Summary where
  id : String
  full_name : String
  engine : Option String
  cost : String
  speed : String
  quality : String
  model : Option String
deriving DecidableEq

/-- Python `s.lower()` on one ASCII character. -/
def lowerChar (c : Char) : Char :=
  if c.isUpper then Char.ofNat (c.toNat + 32) else c

/-- Python `s.lower()` (the identifiers and queries handled here are
ASCII), as a list of characters. -/
def strLower (s : String) : List Char := s.data.map lowerChar

/-- Python `needle in hay` on strings, as lists of characters: `needle`
occurs contiguously in `hay`. -/
def listIsInfixOf (needle hay : List Char) : Bool :=
  needle.isPrefixOf hay ||
    match hay with
    | [] => false
    | _ :: t => listIsInfixOf needle t

/-- Length of the common leading run of identical characters: the Python
loop `for i, (c1, c2) in enumerate(zip(...)): if c1 == c2: common_len = i+1
else: break`. -/
def commonPrefixLen : List Char → List Char → Nat
  | c1 :: t1, c2 :: t2 => if c1 = c2 then commonPrefixLen t1 t2 + 1 else 0
  | _, _ => 0

/-- The match test of `find_similar_models` on the lowercased query and
candidate: substring in either direction; else the candidate starts with
the query OR the query starts with `mid[:len(search)//2]` when
`len(search) > 3` and with `""` (vacuously true) otherwise; else common
prefix of length at least 5. -/
def similarMatch (search mid : List Char) : Bool :=
  if listIsInfixOf search mid || listIsInfixOf mid search then true
  else if search.isPrefixOf mid
      || (if search.length > 3 then mid.take (search.length / 2)
          else []).isPrefixOf search then true
  else decide (commonPrefixLen search mid ≥ 5)

/-- The summary dict appended for a matched candidate. -/
def mkSummary (mid : String) (config : ModelConfig) : Summary :=
  { id := mid, full_name := config.full_name.getD mid,
    engine := config.engine, cost := config.cost.getD "unknown",
    speed := config.speed.getD "unknown",
    quality := config.quality.getD "unknown", model := config.model }

/-- `find_similar_models`: engine filter (`if engine and ...`), fuzzy
match over the merged table, truncation to `limit`. -/
def find_similar_models (custom : Registry) (model_id : String)
    (engine : Option String) (limit : Nat) : List Summary :=
  let search_lower := strLower model_id
  let all_configs := dictMerge MODEL_CONFIGS custom
  let similar := all_configs.filterMap (fun p =>
    if strOptTruthy engine && !(p.2.engine = engine) then Option.none
    else if similarMatch search_lower (strLower p.1) then
      some (mkSummary p.1 p.2)
    else Option.none)
  similar.take limit

/-- `get_model_suggestions`: similar-model search when `model_id` is
truthy, otherwise the first `limit` entries of `list_configs(engine)`
re-shaped as summaries (their dicts carry no `model` key). -/
def get_model_suggestions (custom : Registry) (model_id : Option String)
    (engine : Option String) (limit : Nat) : List Summary :=
  if strOptTruthy model_id then
    find_similar_models custom (model_id.getD "") engine limit
  else
    ((list_configs custom engine).take limit).map (fun c =>
      { id := c.id.getD "", full_name := c.full_name.getD (c.id.getD ""),
        engine := c.engine, cost := c.cost.getD "unknown",
        speed := c.speed.getD "unknown",
        quality := c.quality.getD "unknown", model := Option.none })

/-- The three `ValueError`s raised by `validate_model`, carrying exactly
the data interpolated into the Python message strings: the mismatch error
names the actual and the requested engine; the suggestion error carries
the enumerated suggestion list; the generic error carries the identifier
and engine filter referenced by the list-available-models help text. -/
inductive VError where
  | engineMismatch (model_id : String) (actual : Option String)
      (requested : String)
  | notFoundWithSuggestions (model_id : String) (engine : Option String)
      (suggestions : List Summary)
  | notFound (model_id : String) (engine : Option String)
deriving DecidableEq

/-- `validate_model`: return the `get_config` record, or raise one of the
three errors.  No default configuration is ever fabricated. -/
def validate_model (custom : Registry) (model_id : String)
    (engine : Option String) : Except VError ModelConfig :=
  match get_config custom model_id with
  | some config =>
    if strOptTruthy engine && !(config.engine = engine) then
      .error (.engineMismatch model_id config.engine (engine.getD ""))
    else .ok config
  | Option.none =>
    let similar := find_similar_models custom model_id engine 5
    if similar.isEmpty then .error (.notFound model_id engine)
    else .error (.notFoundWithSuggestions model_id engine similar)

/-- The default backfill of `register_config`:
`{"cost": "medium", ..., **config}` — supplied keys win, absent optional
keys get the documented defaults.  `engine`, `model`, `full_name`,
`context_window` and `default_temperature` have no default. -/
def fillDefaults (config : ModelConfig) : ModelConfig :=
  { config with
    cost := some (config.cost.getD "medium"),
    speed := some (config.speed.getD "medium"),
    quality := some (config.quality.getD "good"),
    best_for := some (config.best_for.getD []),
    free_tier := some (config.free_tier.getD false),
    cost_per_mtok := some (config.cost_per_mtok.getD { input := 0, output := 0 }),
    notes := some (config.notes.getD "") }

/-- `register_config`: refuse when the identifier is already in the
custom registry and `override` is false; otherwise store the backfilled
record.  Only the custom registry is consulted and only it changes. -/
def register_config (custom : Registry) (model_id : String)
    (config : ModelConfig) (override : Bool) : Bool × Registry :=
  if (lookupKey custom model_id).isSome && !override then (false, custom)
  else (true, dictInsert custom model_id (fillDefaults config))

/-- `list_custom_configs`: every custom entry annotated with its
identifier. -/
def list_custom_configs (custom : Registry) : List ModelConfig :=
  custom.map (fun p => { p.2 with id := some p.1 })

deriving instance DecidableEq for Except

/-!  An operation-level view of the module, for the frame properties: one
constructor per public function, a result sum type, and a single step
function threading the custom registry through. -/

/-- One call to a public function of the module. -/
inductive Op where
  | getConfig (model_id : String)
  | listConfigs (engine : Option String)
  | findConfigs (cost speed quality best_for : Crit)
      (free_tier : Option Bool) (engine : Crit)
  | getDefaultModel (engine : String)
  | listEngines
  | findSimilarModels (model_id : String) (engine : Option String) (limit : Nat)
  | getModelSuggestions (model_id : Option String) (engine : Option String)
      (limit : Nat)
  | validateModel (model_id : String) (engine : Option String)
  | listCustomConfigs
  | registerConfig (model_id : String) (config : ModelConfig) (override : Bool)

/-- The result of one call. -/
inductive Out where
  | optConfig : Option ModelConfig → Out
  | configs : List ModelConfig → Out
  | optStr : Option String → Out
  | engines : List (String × EngineConfig) → Out
  | summaries : List Summary → Out
  | validated : Except VError ModelConfig → Out
  | flag : Bool → Out

/-- Every operation is a query (reads the registry) except
`register_config`. -/
def Op.isQuery : Op → Bool
  | .registerConfig _ _ _ => false
  | _ => true

/-- Run one call against the custom registry, returning the result and
the registry afterwards. -/
def runOp : Op → Registry → Out × Registry
  | .getConfig mid, st => (.optConfig (get_config st mid), st)
  | .listConfigs e, st => (.configs (list_configs st e), st)
  | .findConfigs c s q b ft e, st => (.configs (find_configs st c s q b ft e), st)
  | .getDefaultModel e, st => (.optStr (get_default_model e), st)
  | .listEngines, st => (.engines list_engines, st)
  | .findSimilarModels mid e lim, st => (.summaries (find_similar_models st mid e lim), st)
  | .getModelSuggestions mid e lim, st => (.summaries (get_model_suggestions st mid e lim), st)
  | .validateModel mid e, st => (.validated (validate_model st mid e), st)
  | .listCustomConfigs, st => (.configs (list_custom_configs st), st)
  | .registerConfig mid cfg ov, st =>
    let r := register_config st mid cfg ov
    (.flag r.1, r.2)

/-- Apply a sequence of `register_config` calls
`(model_id, config, override)` to a registry. -/
def applyRegs : List (String × ModelConfig × Bool) → Registry → Registry
  | [], st => st
  | (mid, cfg, ov) :: rest, st => applyRegs rest (register_config st mid cfg ov).2

/-!  The three match rules of the specification's suggestion heuristic,
stated on the case-normalized query and candidate exactly as the
specification words them.  `specRuleB` includes the length guard the
specification attaches to the half-length disjunct. -/

/-- Rule (a): the query is a substring of the candidate or vice versa. -/
def specRuleA (query mid : String) : Bool :=
  listIsInfixOf (strLower query) (strLower mid) ||
    listIsInfixOf (strLower mid) (strLower query)

/-- The first disjunct of rule (b): the candidate starts with the full
query. -/
def specRuleBFull (query mid : String) : Bool :=
  (strLower query).isPrefixOf (strLower mid)

/-- The second disjunct of rule (b): the query starts with the
candidate's first `⌊len(query)/2⌋` characters, only when
`len(query) > 3`. -/
def specRuleBHalf (query mid : String) : Bool :=
  decide ((strLower query).length > 3) &&
    ((strLower mid).take ((strLower query).length / 2)).isPrefixOf
      (strLower query)

/-- Rule (c): a common leading run of identical characters of length at
least 5. -/
def specRuleC (query mid : String) : Bool :=
  decide (commonPrefixLen (strLower query) (strLower mid) ≥ 5)

/-!  Dictionary lemmas. -/

theorem lookupKey_map_update_self {α : Type} (d : List (String × α))
    (k : String) (v : α) (h : (lookupKey d k).isSome) :
    lookupKey (d.map (fun p => if p.1 = k then (k, v) else p)) k = some v := by
  induction d with
  | nil => simp [lookupKey] at h
  | cons p rest ih =>
    by_cases hp : p.1 = k
    · simp [lookupKey, hp]
    · simp only [lookupKey, hp, if_false] at h
      simp [lookupKey, hp, ih h]

theorem lookupKey_map_update_ne {α : Type} (d : List (String × α))
    (k k' : String) (v : α) (h : k' ≠ k) :
    lookupKey (d.map (fun p => if p.1 = k then (k, v) else p)) k' =
      lookupKey d k' := by
  induction d with
  | nil => simp [lookupKey]
  | cons p rest ih =>
    by_cases hp : p.1 = k
    · have hk : ¬ (k = k') := fun hkk => h hkk.symm
      have hp' : ¬ (p.1 = k') := by
        rw [hp]; exact hk
      simp [lookupKey, hp, hk, hp', ih]
    · by_cases hq : p.1 = k'
      · simp [lookupKey, hp, hq, h]
      · simp [lookupKey, hp, hq, ih]

theorem lookupKey_append {α : Type} (a b : List (String × α)) (k : String) :
    lookupKey (a ++ b) k =
      match lookupKey a k with
      | some v => some v
      | Option.none => lookupKey b k := by
  induction a with
  | nil => simp [lookupKey]
  | cons p rest ih =>
    by_cases hp : p.1 = k
    · simp [lookupKey, hp]
    · simp [lookupKey, hp, ih]

theorem lookupKey_dictInsert_self {α : Type} (d : List (String × α))
    (k : String) (v : α) :
    lookupKey (dictInsert d k v) k = some v := by
  unfold dictInsert
  split
  · next hs => exact lookupKey_map_update_self d k v hs
  · next hs =>
      rw [lookupKey_append]
      have hn : lookupKey d k = Option.none :=
        Option.not_isSome_iff_eq_none.mp hs
      simp [hn, lookupKey]

theorem lookupKey_dictInsert_ne {α : Type} (d : List (String × α))
    (k k' : String) (v : α) (h : k' ≠ k) :
    lookupKey (dictInsert d k v) k' = lookupKey d k' := by
  unfold dictInsert
  split
  · next hs => exact lookupKey_map_update_ne d k k' v h
  · next hs =>
      rw [lookupKey_append]
      cases hd : lookupKey d k' with
      | some w => simp [hd]
      | none =>
          simp only [hd, lookupKey]
          rw [if_neg (fun hkk : k = k' => h hkk.symm)]

theorem keys_map_update {α : Type} (d : List (String × α)) (k : String)
    (v : α) :
    (d.map (fun p => if p.1 = k then (k, v) else p)).map Prod.fst =
      d.map Prod.fst := by
  induction d with
  | nil => simp
  | cons p rest ih =>
    by_cases hp : p.1 = k
    · simp [hp, ih]
    · simp [hp, ih]

theorem lookupKey_eq_none_iff {α : Type} (d : List (String × α))
    (k : String) :
    lookupKey d k = Option.none ↔ k ∉ d.map Prod.fst := by
  induction d with
  | nil => simp [lookupKey]
  | cons p rest ih =>
    by_cases hp : p.1 = k
    · simp [lookupKey, hp]
    · have hstep : lookupKey (p :: rest) k = lookupKey rest k := by
        simp [lookupKey, hp]
      rw [hstep, ih, List.map_cons]
      simp only [List.mem_cons, not_or]
      exact ⟨fun hn => ⟨fun hk => hp hk.symm, hn⟩, fun hn => hn.2⟩

theorem keys_nodup_dictInsert {α : Type} (d : List (String × α))
    (k : String) (v : α) (h : (d.map Prod.fst).Nodup) :
    ((dictInsert d k v).map Prod.fst).Nodup := by
  unfold dictInsert
  split
  · next hs =>
      rw [keys_map_update]
      exact h
  · next hs =>
      have hn : lookupKey d k = Option.none :=
        Option.not_isSome_iff_eq_none.mp hs
      have hk : k ∉ d.map Prod.fst := (lookupKey_eq_none_iff d k).mp hn
      simp only [List.map_append, List.map_cons, List.map_nil]
      rw [List.nodup_append]
      refine ⟨h, List.nodup_singleton k, ?_⟩
      intro x hx hx'
      simp only [List.mem_singleton] at hx'
      exact hk (hx' ▸ hx)

/-!  Concrete records used in the counterexamples and witnesses below. -/

/-- A partial custom record whose `cost` differs from the built-in
`gpt-4o` record. -/
def rec_custom_a : ModelConfig :=
  { engine := some "opencode", model := some "alpha", cost := some "free" }

/-- A second partial custom record, distinguishable from `rec_custom_a`. -/
def rec_custom_b : ModelConfig :=
  { engine := some "opencode", model := some "beta", cost := some "expensive" }

/-!  The claims. -/

/-- C1: REFUTED ON THE CODE (code bug).  The specification says the
half-length prefix disjunct of rule (b) is only evaluated when
`len(query) > 3`, guarding against over-eager short-string matches; but
for a query of length at most 3 the code evaluates
`search.startswith("")`, which is always true, so every engine-matching
candidate is returned.  At the length-3 query "xyz" the returned list is
the first five models of the table wholesale, and its first entry
"claude-sonnet-4-20250514" satisfies neither rule (a), nor the
candidate-starts-with-the-full-query disjunct of rule (b), nor
rule (c). -/
theorem c1_short_query_guard_fails :
    (find_similar_models [] "xyz" Option.none 5).map Summary.id =
      ["claude-sonnet-4-20250514", "claude-opus-4-20250514",
       "claude-sonnet-3.7", "claude-haiku-3.5", "gpt-4o"] ∧
    specRuleA "xyz" "claude-sonnet-4-20250514" = false ∧
    specRuleBFull "xyz" "claude-sonnet-4-20250514" = false ∧
    specRuleC "xyz" "claude-sonnet-4-20250514" = false := by decide

/-- C2: REFUTED ON THE CODE (same code bug as C1).  The limit bound does
hold, but at the length-3 query "xyz" the returned list contains an entry
whose identifier satisfies none of the three match rules of the
specification (substring in either direction; full-query or guarded
half-length prefix; common leading run of length at least 5). -/
theorem c2_match_rules_violated :
    (find_similar_models [] "xyz" Option.none 5).length ≤ 5 ∧
    (∃ s ∈ find_similar_models [] "xyz" Option.none 5,
      specRuleA "xyz" s.id = false ∧ specRuleBFull "xyz" s.id = false ∧
      specRuleBHalf "xyz" s.id = false ∧ specRuleC "xyz" s.id = false) := by
  decide

/-- C3, counterexample: "gpt-4o" is a built-in identifier, yet
`register_config("gpt-4o", rec, override=False)` returns `True` and
inserts into the custom registry — the code only consults the custom
table for the conflict check. -/
theorem c3_builtin_conflict_accepted :
    (lookupKey MODEL_CONFIGS "gpt-4o").isSome = true ∧
    (register_config [] "gpt-4o" rec_custom_a false).1 = true ∧
    (lookupKey (register_config [] "gpt-4o" rec_custom_a false).2
      "gpt-4o").isSome = true := by decide

/-- C3 (amended): with `override=False`, `register_config` returns
`False` and leaves the registry unchanged exactly when the identifier is
already in the CUSTOM registry; an identifier present only in the
built-in table is accepted: the call returns `True` and stores the
default-backfilled record under that identifier, leaving every other
entry unchanged. -/
theorem c3_register_conflict (custom : Registry) (model_id : String)
    (config : ModelConfig) :
    ((lookupKey custom model_id).isSome →
      register_config custom model_id config false = (false, custom)) ∧
    ((lookupKey custom model_id).isNone →
      (register_config custom model_id config false).1 = true ∧
      lookupKey (register_config custom model_id config false).2 model_id =
        some (fillDefaults config) ∧
      ∀ k, k ≠ model_id →
        lookupKey (register_config custom model_id config false).2 k =
          lookupKey custom k) := by
  constructor
  · intro hs
    unfold register_config
    rw [if_pos (by simp [hs])]
  · intro hn
    have hs : (lookupKey custom model_id).isSome = false := by
      simpa [Option.isNone_iff_eq_none] using hn
    have hreg : register_config custom model_id config false =
        (true, dictInsert custom model_id (fillDefaults config)) := by
      unfold register_config
      rw [if_neg (by simp [hs])]
    refine ⟨by rw [hreg], ?_, ?_⟩
    · rw [hreg]
      exact lookupKey_dictInsert_self custom model_id (fillDefaults config)
    · intro k hk
      rw [hreg]
      exact lookupKey_dictInsert_ne custom model_id k (fillDefaults config) hk

/-- Witness for C3 (amended): registering a fresh identifier succeeds and
stores the backfilled record. -/
theorem c3_register_conflict_witness :
    (register_config [] "my-model" rec_custom_a false).1 = true ∧
    lookupKey (register_config [] "my-model" rec_custom_a false).2
      "my-model" = some (fillDefaults rec_custom_a) := by
  have h := (c3_register_conflict [] "my-model" rec_custom_a).2 (by decide)
  exact ⟨h.1, h.2.1⟩

/-- C10: for an identifier present in the built-in table, `get_config`
returns the built-in record annotated with the identifier, whatever the
custom registry holds under that identifier. -/
theorem c10_builtin_wins (custom : Registry) (model_id : String)
    (c : ModelConfig) (h : lookupKey MODEL_CONFIGS model_id = some c) :
    get_config custom model_id = some { c with id := some model_id } := by
  unfold get_config
  rw [h]

/-- Witness for C10: with a custom record registered under "gpt-4o", the
built-in record is still the one returned. -/
theorem c10_builtin_wins_witness :
    get_config [("gpt-4o", rec_custom_a)] "gpt-4o" =
      some { cfg_gpt_4o with id := some "gpt-4o" } :=
  c10_builtin_wins [("gpt-4o", rec_custom_a)] "gpt-4o" cfg_gpt_4o (by decide)

/-- `register_config` keeps the custom registry's keys distinct. -/
theorem register_config_keys_nodup (st : Registry) (model_id : String)
    (config : ModelConfig) (override : Bool)
    (h : (st.map Prod.fst).Nodup) :
    (((register_config st model_id config override).2).map Prod.fst).Nodup := by
  unfold register_config
  split
  · exact h
  · exact keys_nodup_dictInsert st model_id (fillDefaults config) h

/-- C4, counterexample: registering the built-in identifier "gpt-4o"
without `override` succeeds, after which the identifier occurs in both
tables at once; moreover the merged view used by `find_configs` then
returns the custom record (its cost "free" instead of the built-in
"medium"), i.e. the custom entry shadows the built-in one although no
insertion requested override. -/
theorem c4_duplicate_across_tables :
    (register_config [] "gpt-4o" rec_custom_a false).1 = true ∧
    (lookupKey MODEL_CONFIGS "gpt-4o").isSome = true ∧
    (lookupKey (register_config [] "gpt-4o" rec_custom_a false).2
      "gpt-4o").isSome = true ∧
    ((find_configs (register_config [] "gpt-4o" rec_custom_a false).2
        (Crit.one "free") Crit.nil Crit.nil Crit.nil Option.none
        Crit.nil).any (fun r => r.id == some "gpt-4o")) = true := by decide

/-- C4 (amended): identifier uniqueness holds per table, not across the
union: the built-in table's keys are distinct, and after any sequence of
`register_config` calls starting from the empty custom registry the
custom registry's keys remain distinct; but the same identifier may occur
in both tables at once even when no call requested override (see the
counterexample), so cross-table uniqueness and override-gated shadowing
fail. -/
theorem c4_per_table_uniqueness (ops : List (String × ModelConfig × Bool)) :
    (MODEL_CONFIGS.map Prod.fst).Nodup ∧
    ((applyRegs ops []).map Prod.fst).Nodup := by
  constructor
  · decide
  · have hstep : ∀ (l : List (String × ModelConfig × Bool)) (st : Registry),
        (st.map Prod.fst).Nodup → ((applyRegs l st).map Prod.fst).Nodup := by
      intro l
      induction l with
      | nil => exact fun st h => h
      | cons p rest ih =>
        intro st h
        exact ih (register_config st p.1 p.2.1 p.2.2).2
          (register_config_keys_nodup st p.1 p.2.1 p.2.2 h)
    exact hstep ops [] (by simp)

/-- C5, counterexample: with the supplied engine `""` — an engine
constraint that is present and differs from the record's engine
"opencode" — `validate_model` returns the record instead of raising the
engine-mismatch error, because the code tests Python truthiness
(`if engine`) rather than presence. -/
theorem c5_empty_engine_not_checked :
    validate_model [] "gpt-4o" (some "") =
      .ok { cfg_gpt_4o with id := some "gpt-4o" } ∧
    (some "" ≠ (Option.none : Option String)) ∧
    cfg_gpt_4o.engine = some "opencode" := by decide

/-- C5 (amended): `validate_model` has exactly three terminal outcomes,
where a supplied engine equal to the empty string is treated as no
constraint (Python truthiness).  If the identifier is found and the
engine constraint is absent or matches, the annotated `get_config` record
is returned; if it is found and a nonempty supplied engine differs, the
error names the actual and the requested engine; if it is not found, an
error is raised — carrying the `find_similar_models` suggestions when
that list is nonempty and the generic list-available-models reference
when it is empty — and no record is ever returned for an unknown
identifier. -/
theorem c5_trichotomy (custom : Registry) (model_id : String) :
    (∀ c, get_config custom model_id = some c →
      validate_model custom model_id Option.none = .ok c) ∧
    (∀ c e, get_config custom model_id = some c → e ≠ "" →
      c.engine = some e →
      validate_model custom model_id (some e) = .ok c) ∧
    (∀ c e, get_config custom model_id = some c → e ≠ "" →
      c.engine ≠ some e →
      validate_model custom model_id (some e) =
        .error (.engineMismatch model_id c.engine e)) ∧
    (∀ engine, get_config custom model_id = Option.none →
      find_similar_models custom model_id engine 5 = [] →
      validate_model custom model_id engine =
        .error (.notFound model_id engine)) ∧
    (∀ engine, get_config custom model_id = Option.none →
      find_similar_models custom model_id engine 5 ≠ [] →
      validate_model custom model_id engine =
        .error (.notFoundWithSuggestions model_id engine
          (find_similar_models custom model_id engine 5))) := by
  refine ⟨?_, ?_, ?_, ?_, ?_⟩
  · intro c hc
    simp [validate_model, hc, strOptTruthy]
  · intro c e hc he hce
    simp [validate_model, hc, strOptTruthy, he, hce]
  · intro c e hc he hce
    simp [validate_model, hc, strOptTruthy, he, hce]
  · intro engine hn hsim
    simp [validate_model, hn, hsim]
  · intro engine hn hsim
    simp [validate_model, hn, List.isEmpty_iff, hsim]

/-- Witness for C5 (amended): an identifier far from every registered one
raises the generic not-found error. -/
theorem c5_trichotomy_witness :
    validate_model [] "totally-unknown-qqq" Option.none =
      .error (.notFound "totally-unknown-qqq" Option.none) :=
  (c5_trichotomy [] "totally-unknown-qqq").2.2.2.1 Option.none (by decide)
    (by decide)

/-- A non-rejecting criterion that is supplied and nonempty is satisfied
by membership. -/
theorem critRejects_false {cl : Option (List String)} {v : Option String}
    (h : critRejects cl v = false) :
    ∀ l, cl = some l → l ≠ [] → ∃ s ∈ l, v = some s := by
  intro l hl hne
  subst hl
  simp only [critRejects] at h
  rw [if_neg (by simpa [List.isEmpty_iff] using hne)] at h
  cases v with
  | some s =>
    simp only [Bool.not_eq_false', decide_eq_true_eq] at h
    exact ⟨s, h, rfl⟩
  | none => simp at h

/-- A non-rejecting `best_for` criterion that is supplied and nonempty
shares at least one tag. -/
theorem bestForRejects_false {bfl : Option (List String)}
    {uses : List String} (h : bestForRejects bfl uses = false) :
    ∀ l, bfl = some l → l ≠ [] → ∃ t ∈ l, t ∈ uses := by
  intro l hl hne
  subst hl
  simp only [bestForRejects] at h
  rw [if_neg (by simpa [List.isEmpty_iff] using hne)] at h
  simp only [Bool.not_eq_false', List.any_eq_true, decide_eq_true_eq] at h
  exact h

/-- C6, counterexample: a supplied EMPTY criterion list is falsy in
Python, so `find_configs(cost=[])` treats it as no constraint and returns
all 30 built-in records — while no record can satisfy membership of its
cost in the empty list, as the claim would require. -/
theorem c6_empty_list_ignored :
    (find_configs [] (Crit.many []) Crit.nil Crit.nil Crit.nil Option.none
      Crit.nil).length = 30 ∧
    (∃ r ∈ find_configs [] (Crit.many []) Crit.nil Crit.nil Crit.nil
        Option.none Crit.nil,
      ¬ ∃ c ∈ ([] : List String), r.cost = some c) := by decide

/-- C6 (amended): every record returned by `find_configs` satisfies each
supplied NONEMPTY criterion (membership for the list-valued dimensions,
a shared tag for `best_for`, exact boolean equality for `free_tier`);
a dimension whose criterion is absent — or an empty list, which Python
truthiness treats as absent — imposes no constraint; and supplying no
criteria at all returns the full merged (built-in updated by custom)
table.  An empty result is an ordinary value, not an error. -/
theorem c6_find_configs_sound (custom : Registry)
    (cost speed quality best_for : Crit) (free_tier : Option Bool)
    (engine : Crit) :
    (∀ r ∈ find_configs custom cost speed quality best_for free_tier engine,
      (∀ l, cost.normalize = some l → l ≠ [] → ∃ s ∈ l, r.cost = some s) ∧
      (∀ l, speed.normalize = some l → l ≠ [] → ∃ s ∈ l, r.speed = some s) ∧
      (∀ l, quality.normalize = some l → l ≠ [] →
        ∃ s ∈ l, r.quality = some s) ∧
      (∀ l, best_for.normalize = some l → l ≠ [] →
        ∃ t ∈ l, t ∈ r.best_for.getD []) ∧
      (∀ b, free_tier = some b → r.free_tier = some b) ∧
      (∀ l, engine.normalize = some l → l ≠ [] →
        ∃ s ∈ l, r.engine = some s)) ∧
    (find_configs custom Crit.nil Crit.nil Crit.nil Crit.nil Option.none
        Crit.nil =
      (dictMerge MODEL_CONFIGS custom).map
        (fun p => { p.2 with id := some p.1 })) := by
  constructor
  · intro r hr
    unfold find_configs at hr
    rw [List.mem_map] at hr
    obtain ⟨p, hp, rfl⟩ := hr
    rw [List.mem_filter] at hp
    obtain ⟨-, hq⟩ := hp
    simp only [Bool.and_eq_true, Bool.not_eq_true'] at hq
    obtain ⟨hq15, h6⟩ := hq
    obtain ⟨hq14, h5⟩ := hq15
    obtain ⟨hq13, h4⟩ := hq14
    obtain ⟨hq12, h3⟩ := hq13
    obtain ⟨h1, h2⟩ := hq12
    refine ⟨critRejects_false h1, critRejects_false h2,
      critRejects_false h3, bestForRejects_false h6, ?_, critRejects_false h5⟩
    intro b hb
    subst hb
    simpa using h4
  · simp only [find_configs]
    congr 1
    apply List.filter_eq_self.mpr
    intro p _
    simp [Crit.normalize, critRejects, bestForRejects]

/-- Witness for C6 (amended): the record returned by
`find_configs(cost="free")` for "minimax-m2.1-free" indeed has cost
"free". -/
theorem c6_find_configs_sound_witness :
    ({ cfg_minimax_m2_1_free with id := some "minimax-m2.1-free" } :
      ModelConfig).cost = some "free" := by
  have h := ((c6_find_configs_sound [] (Crit.one "free") Crit.nil Crit.nil
      Crit.nil Option.none Crit.nil).1
    { cfg_minimax_m2_1_free with id := some "minimax-m2.1-free" }
    (by decide)).1 ["free"] rfl (by decide)
  obtain ⟨s, hs, hcost⟩ := h
  have hfree : s = "free" := by simpa using hs
  rw [hfree] at hcost
  exact hcost

/-- C7, counterexample: for the built-in identifier "gpt-4o",
`register_config` succeeds but `get_config` keeps returning the built-in
record — its cost is "medium", not the registered record's "free" — so
"get(id) reflects rec's fields" fails for identifiers that exist in the
built-in table. -/
theorem c7_builtin_id_not_reflected :
    (register_config [] "gpt-4o" rec_custom_a false).1 = true ∧
    (get_config (register_config [] "gpt-4o" rec_custom_a false).2
      "gpt-4o").map ModelConfig.cost = some (some "medium") ∧
    rec_custom_a.cost = some "free" := by decide

/-- C7 (amended): for an identifier absent from BOTH the built-in table
and the custom registry, registering `r1` succeeds; a second registration
of `r2` without override returns `False` and changes nothing, and
`get_config` still returns `r1`'s backfilled record; with `override=True`
the second registration succeeds and `get_config` returns `r2`'s
backfilled record. -/
theorem c7_register_twice (custom : Registry) (model_id : String)
    (r1 r2 : ModelConfig)
    (hb : lookupKey MODEL_CONFIGS model_id = Option.none)
    (hc : lookupKey custom model_id = Option.none) :
    (register_config custom model_id r1 false).1 = true ∧
    register_config (register_config custom model_id r1 false).2
        model_id r2 false =
      (false, (register_config custom model_id r1 false).2) ∧
    get_config (register_config custom model_id r1 false).2 model_id =
      some { fillDefaults r1 with id := some model_id } ∧
    (register_config (register_config custom model_id r1 false).2
      model_id r2 true).1 = true ∧
    get_config (register_config (register_config custom model_id r1
        false).2 model_id r2 true).2 model_id =
      some { fillDefaults r2 with id := some model_id } := by
  have hreg1 : register_config custom model_id r1 false =
      (true, dictInsert custom model_id (fillDefaults r1)) := by
    unfold register_config
    rw [if_neg (by simp [hc])]
  have hst1 : lookupKey (register_config custom model_id r1 false).2
      model_id = some (fillDefaults r1) := by
    rw [hreg1]
    exact lookupKey_dictInsert_self custom model_id (fillDefaults r1)
  have hreg2 : register_config (register_config custom model_id r1
      false).2 model_id r2 true =
      (true, dictInsert (register_config custom model_id r1 false).2
        model_id (fillDefaults r2)) := by
    unfold register_config
    rw [if_neg (by simp)]
  refine ⟨by rw [hreg1], ?_, ?_, by rw [hreg2], ?_⟩
  · rw [hreg1]
    unfold register_config
    rw [if_pos (by simp [lookupKey_dictInsert_self])]
  · unfold get_config
    rw [hb, hst1]
  · unfold get_config
    rw [hb, hreg2]
    rw [lookupKey_dictInsert_self]

/-- Witness for C7 (amended): registering "my-model" twice, the second
time with override, makes `get_config` return the second record's
backfilled fields. -/
theorem c7_register_twice_witness :
    get_config (register_config (register_config [] "my-model"
        rec_custom_a false).2 "my-model" rec_custom_b true).2 "my-model" =
      some { fillDefaults rec_custom_b with id := some "my-model" } :=
  (c7_register_twice [] "my-model" rec_custom_a rec_custom_b (by decide)
    (by decide)).2.2.2.2

/-- C8: `get_default_model` returns the configured default of the
(alias-resolved) engine and not-found for an unknown engine: concretely,
"claude-code" resolves to the canonical "claude" record and yields
"claude-sonnet-4-20250514", a nonexistent engine yields `none`; every
alias listed on an engine record resolves to that engine's lookup; and a
name that is no engine key and no alias yields `none`. -/
theorem c8_get_default_model :
    get_default_model "claude-code" = some "claude-sonnet-4-20250514" ∧
    get_default_model "nonexistent-engine" = Option.none ∧
    (∀ a canonical cfg, (canonical, cfg) ∈ ENGINE_CONFIGS →
      a ∈ cfg.aliases.getD [] →
      get_default_model a = get_default_model canonical) ∧
    (∀ e, (∀ p ∈ ENGINE_CONFIGS, e ∉ p.2.aliases.getD []) →
      lookupKey ENGINE_CONFIGS e = Option.none →
      get_default_model e = Option.none) := by
  refine ⟨by decide, by decide, ?_, ?_⟩
  · intro a canonical cfg hm ha
    simp only [ENGINE_CONFIGS, List.mem_cons, List.not_mem_nil, or_false,
      Prod.mk.injEq] at hm
    rcases hm with h | h | h | h | h | h | h | h | h <;>
      obtain ⟨rfl, rfl⟩ := h <;>
      simp only [eng_claude, eng_opencode, eng_codex, eng_ollama, eng_aider,
        eng_qwen, eng_cursor, eng_goose, eng_copilot, Option.getD_some,
        Option.getD_none, List.mem_singleton, List.not_mem_nil] at ha
    subst ha
    decide
  · intro e ha hn
    have hne : ¬ e = "claude-code" := by
      intro he
      subst he
      exact ha ("claude", eng_claude) (by decide) (by decide)
    simp only [get_default_model]
    rw [if_neg hne, hn]

/-- Witness for C8: the alias resolution conjunct at the only alias in
the data, "claude-code". -/
theorem c8_get_default_model_witness :
    get_default_model "claude-code" = get_default_model "claude" :=
  c8_get_default_model.2.2.1 "claude-code" "claude" eng_claude (by decide)
    (by decide)

/-- C9: every query operation returns the custom registry unchanged (the
built-in `MODEL_CONFIGS` and `ENGINE_CONFIGS` are immutable constants of
this model), and `register_config` changes at most the entry under its
own identifier and never deletes an entry. -/
theorem c9_frame (op : Op) (st : Registry) :
    (op.isQuery = true → (runOp op st).2 = st) ∧
    (∀ model_id config override,
      op = .registerConfig model_id config override →
      (∀ k, k ≠ model_id →
        lookupKey (runOp op st).2 k = lookupKey st k) ∧
      (∀ k, (lookupKey st k).isSome →
        (lookupKey (runOp op st).2 k).isSome)) := by
  constructor
  · intro hq
    cases op <;> first | rfl | (simp [Op.isQuery] at hq)
  · rintro model_id config override rfl
    constructor
    · intro k hk
      show lookupKey (register_config st model_id config override).2 k =
        lookupKey st k
      unfold register_config
      split
      · rfl
      · exact lookupKey_dictInsert_ne st model_id k (fillDefaults config) hk
    · intro k hks
      by_cases hk : k = model_id
      · subst hk
        show (lookupKey (register_config st k config override).2 k).isSome
        unfold register_config
        split
        · exact hks
        · rw [lookupKey_dictInsert_self]
          rfl
      · show (lookupKey (register_config st model_id config override).2
          k).isSome
        unfold register_config
        split
        · exact hks
        · rw [lookupKey_dictInsert_ne st model_id k (fillDefaults config) hk]
          exact hks

/-- Witness for C9: a concrete query, `get_config`, leaves the registry
unchanged. -/
theorem c9_frame_witness : (runOp (Op.getConfig "gpt-4o") []).2 = [] :=
  (c9_frame (Op.getConfig "gpt-4o") []).1 rfl

end Omnai
